import Mathlib

/-!
Verification of the session/token-lifecycle core of the Nextjs-Django-Org-Switcher
example backend (`src/backend/auth_app/`).  The Python code is shallowly embedded:

* Python dict values that may be absent or `None` become `Option String`
  (string-valued keys), `Option Nat` (integer-valued keys), and so on; Python
  truthiness on such values is the `truthy` predicate below.
* The Django session is the `Session` structure; session mutation is explicit
  state passing (each view returns a response together with the new session).
* Outbound provider calls (Scalekit SDK, raw HTTP) are oracles passed as
  `Except String _` arguments: `.error e` models the call raising an exception
  with message `e`, `.ok v` models a successful response `v`.
* Timestamps are integers (seconds).  The session stores `expires_at` as an
  ISO string in the source; this is modelled by `TimeStr`, which is either a
  well-formed encoding of a timestamp or a malformed string on which the
  middleware's `fromisoformat` parse fails.
-/

namespace OrgSwitcher

/-- Python truthiness of a string: non-empty is truthy. -/
def truthyStr (s : String) : Bool := !(s == "")

/-- Python truthiness of an optional string value (`None` and `""` are falsy). -/
def truthy : Option String → Bool
  | none => false
  | some s => truthyStr s

/-- Python `a or b` where `a` is an optional value and `b` a string
(e.g. `d.get('k1') or d.get('k2', '')`). -/
def strOr (a : Option String) (b : String) : String :=
  match a with
  | none => b
  | some s => if s == "" then b else s

/-- Python `a or b` on two optional values (the result may itself be falsy). -/
def optOr (a b : Option String) : Option String :=
  if truthy a then a else b

/-- Python `str.strip()` (whitespace trimmed from both ends), over the
character list so that it evaluates by kernel reduction. -/
def pyStrip (s : String) : String :=
  ⟨((s.data.dropWhile Char.isWhitespace).reverse.dropWhile Char.isWhitespace).reverse⟩

/-- Python `str.startswith(p)`. -/
def pyStartsWith (s p : String) : Bool :=
  s.data.take p.data.length == p.data

/-- The `user` object of the token response (`token_response.get('user', {})`);
all keys optional, an absent object behaves as the empty dict. -/
structure UserObj where
  id : Option String := none
  name : Option String := none
  username : Option String := none
  givenName : Option String := none
  familyName : Option String := none
  email : Option String := none
deriving DecidableEq, Repr

/-- The claim map returned by `client.get_user_info` (token claims); only the
keys the views read are modelled. -/
structure ClaimMap where
  name : Option String := none
  preferred_username : Option String := none
  oid : Option String := none
  org_id : Option String := none
  organization_id : Option String := none
deriving DecidableEq, Repr

/-- `views.py` lines 157–166: the display-name derivation of `callback_view`.
`step1` is line 157: `name = user_obj.get('name') or user_obj.get('username', '')`. -/
def step1 (u : UserObj) : String :=
  strOr u.name (u.username.getD "")

/-- `views.py` lines 159–164: the value assigned when `step1` is falsy —
if `given_name or family_name` is truthy, `f"{given_name} {family_name}".strip()`,
otherwise `user_info.get('name') or user_info.get('preferred_username', '')`. -/
def step2 (u : UserObj) (c : ClaimMap) : String :=
  if (u.givenName.getD "") == "" && (u.familyName.getD "") == "" then
    strOr c.name (c.preferred_username.getD "")
  else
    pyStrip ((u.givenName.getD "") ++ " " ++ (u.familyName.getD ""))

/-- `views.py` lines 157–166 assembled: the display name stored at callback,
with the final fallback `name = user_obj.get('email', '')` (line 166). -/
def deriveName (u : UserObj) (c : ClaimMap) : String :=
  if step1 u == "" then
    if step2 u c == "" then u.email.getD "" else step2 u c
  else step1 u

/-- First non-empty string of a candidate list (empty when none is). -/
def firstNonempty : List String → String
  | [] => ""
  | s :: rest => if s == "" then firstNonempty rest else s

/-- Modelled from the spec's words (display-name rule of the claim): the
candidates explicit name, username, stripped given+family concatenation,
claim-map name, claim-map preferred_username, email are tried in strict
priority order and the first non-empty one wins. -/
def specDisplayName (u : UserObj) (c : ClaimMap) : String :=
  firstNonempty [u.name.getD "", u.username.getD "",
    pyStrip ((u.givenName.getD "") ++ " " ++ (u.familyName.getD "")),
    c.name.getD "", c.preferred_username.getD "", u.email.getD ""]

/-- The display-name rule as the code actually implements it: same priority
list, except that as soon as givenName or familyName is non-empty the stripped
concatenation is committed to (falling through directly to email when it strips
to nothing), and the claim map is consulted only when givenName and familyName
are both empty. -/
def specDisplayNameAmended (u : UserObj) (c : ClaimMap) : String :=
  if firstNonempty [u.name.getD "", u.username.getD ""] == "" then
    if (u.givenName.getD "") == "" && (u.familyName.getD "") == "" then
      firstNonempty [c.name.getD "", c.preferred_username.getD "", u.email.getD ""]
    else
      firstNonempty [pyStrip ((u.givenName.getD "") ++ " " ++ (u.familyName.getD "")),
        u.email.getD ""]
  else firstNonempty [u.name.getD "", u.username.getD ""]

/-- The example user object of the claim:
`{name: "", username: "", givenName: "Ada", familyName: "Lovelace"}`. -/
def adaUserObj : UserObj :=
  { name := some "", username := some "", givenName := some "Ada",
    familyName := some "Lovelace" }

/-- A user object whose givenName is whitespace-only: truthy for the branch
test on line 161 of `views.py`, yet stripping the concatenation leaves it empty. -/
def wsUserObj : UserObj :=
  { name := some "", username := some "", givenName := some " ",
    familyName := some "", email := some "eve@example.com" }

/-- A claim map carrying a non-empty name, which the priority list of the
claim would select for `wsUserObj`. -/
def wsClaimMap : ClaimMap := { name := some "Grace" }

/-- A stored timestamp string: either the well-formed `isoformat` encoding of
an integer timestamp written by this application, or a malformed string on
which `fromisoformat` raises. -/
inductive TimeStr where
  | valid (t : Int)
  | malformed (s : String)
deriving DecidableEq, Repr

/-- `timezone.datetime.fromisoformat` applied to a stored `expires_at` string;
`none` models the parse raising (caught on `middleware.py` lines 47–49). -/
def parseTime : TimeStr → Option Int
  | .valid t => some t
  | .malformed _ => none

/-- The `scalekit_tokens` session entry (`views.py` lines 180–186). -/
structure TokenBundle where
  access_token : Option String := none
  refresh_token : Option String := none
  id_token : Option String := none
  expires_at : Option TimeStr := none
  expires_in : Nat := 0
deriving DecidableEq, Repr

/-- The `scalekit_user` session entry (`views.py` lines 170–179). -/
structure SessionUser where
  sub : Option String := none
  email : Option String := none
  name : String := ""
  given_name : Option String := none
  family_name : Option String := none
  preferred_username : Option String := none
  claims : ClaimMap := {}
  current_organization_id : Option String := none
deriving DecidableEq, Repr

/-- The Django server-side session, restricted to the keys this app uses. -/
structure Session where
  oauth_state : Option String := none
  scalekit_user : Option SessionUser := none
  scalekit_tokens : Option TokenBundle := none
deriving DecidableEq, Repr

/-- A raw token response dict as returned by the Scalekit SDK
(`authenticate_with_code` / `refresh_access_token`).  `none` models an absent
or null key.  `expires_at_wire` is a provider-supplied absolute expiry that
the application code never reads. -/
structure RawTokenResponse where
  access_token : Option String := none
  refresh_token : Option String := none
  id_token : Option String := none
  expires_in : Option Nat := none
  expires_at_wire : Option Int := none
  user : UserObj := {}
deriving DecidableEq, Repr

/-- `scalekit_client.py` lines 109–127, `ScalekitClient.exchange_code_for_tokens`:
wraps the SDK call (oracle `sdk`), defaults `expires_in` to 3600 when absent,
and rewraps any SDK exception. -/
def exchange_code_for_tokens (sdk : Except String RawTokenResponse) :
    Except String RawTokenResponse :=
  match sdk with
  | .error e => .error ("Failed to exchange code for tokens: " ++ e)
  | .ok tr =>
    .ok (if tr.expires_in.isNone then { tr with expires_in := some 3600 } else tr)

/-- `scalekit_client.py` lines 144–160, `ScalekitClient.refresh_access_token`:
wraps the SDK refresh call (oracle `sdk`), defaults `expires_in` to 3600 when
absent, replaces an absent or falsy response `refresh_token` with the old one
`rt`, and rewraps any SDK exception. -/
def refresh_access_token (rt : String) (sdk : Except String RawTokenResponse) :
    Except String RawTokenResponse :=
  match sdk with
  | .error e => .error ("Failed to refresh access token: " ++ e)
  | .ok tr =>
    let tr := if tr.expires_in.isNone then { tr with expires_in := some 3600 } else tr
    let tr := if truthy tr.refresh_token then tr else { tr with refresh_token := some rt }
    .ok tr

/-- `scalekit_client.py` lines 177–188, `ScalekitClient.get_user_info`:
validates the access token and returns its claims, rewrapping SDK exceptions
(oracle `v` is the SDK validation outcome). -/
def get_user_info (v : Except String ClaimMap) : Except String ClaimMap :=
  match v with
  | .error e => .error ("Failed to retrieve user info: " ++ e)
  | .ok c => .ok c

/-- `middleware.py` line 28: the paths on which token refresh is skipped. -/
def skip_paths : List String :=
  ["/api/auth/login", "/api/auth/callback", "/api/auth/logout", "/static/",
   "/api/auth/refresh"]

/-- Result of one middleware evaluation: the value `process_request` returns
(the source returns `None` on every path, so a `some` would model failing the
request), the resulting session, and whether the provider refresh endpoint was
actually called (reaching `client.refresh_access_token` on line 60). -/
structure MwResult where
  response : Option String
  session : Session
  refreshAttempted : Bool
deriving DecidableEq, Repr

/-- `middleware.py` lines 19–83, `ScalekitTokenRefreshMiddleware.process_request`,
at time `now` for a request on `path`; `sdk` is the outcome the SDK refresh
call would have (only consulted when the source reaches line 60). -/
def process_request (now : Int) (path : String) (sess : Session)
    (sdk : Except String RawTokenResponse) : MwResult :=
  if sess.scalekit_user.isNone then ⟨none, sess, false⟩
  else if skip_paths.any (fun p => pyStartsWith path p) then ⟨none, sess, false⟩
  else
    match sess.scalekit_tokens with
    | none => ⟨none, sess, false⟩
    | some td =>
      match td.expires_at with
      | none => ⟨none, sess, false⟩
      | some ts =>
        match parseTime ts with
        | none => ⟨none, sess, false⟩
        | some expires_at =>
          if now + 60 ≥ expires_at then
            if truthy td.refresh_token then
              let rt := td.refresh_token.getD ""
              match refresh_access_token rt sdk with
              | .error _ => ⟨none, sess, true⟩
              | .ok tr =>
                let expires_in := tr.expires_in.getD 3600
                ⟨none,
                 { sess with scalekit_tokens := some {
                     access_token := tr.access_token,
                     refresh_token := some (tr.refresh_token.getD rt),
                     id_token := match tr.id_token with
                       | some s => some s
                       | none => td.id_token,
                     expires_at := some (.valid (now + (expires_in : Int))),
                     expires_in := expires_in } },
                 true⟩
            else ⟨none, sess, false⟩
          else ⟨none, sess, false⟩

/-- The exempted paths the claim names (login/callback/logout/refresh). -/
def claimExemptPaths : List String :=
  ["/api/auth/login", "/api/auth/callback", "/api/auth/logout", "/api/auth/refresh"]

/-- An organization record as this app shapes it (`id`, `display_name`, and
the `is_current` flag added by `user_info_view`). -/
structure OrgSummary where
  id : Option String := none
  display_name : Option String := none
  is_current : Option Bool := none
deriving DecidableEq, Repr

/-- The parsed JSON body of a callback request. -/
structure CallbackBody where
  state : Option String := none
  code : Option String := none
  error : Option String := none
deriving DecidableEq, Repr

/-- Oracle for the outbound calls `callback_view` makes: the SDK code-exchange
outcome, the SDK claims-validation outcome, and the organization list (the
`get_user_organizations` read on line 143 never raises). -/
structure CallbackOracle where
  sdkExchange : Except String RawTokenResponse
  sdkClaims : Except String ClaimMap
  orgs : List OrgSummary
deriving Repr

/-- The response of `callback_view`: success (the JSON payload of lines
190–199) or one of its failure responses. -/
inductive CbResponse where
  | ok (id : Option String) (email : Option String) (name : String)
      (current_organization_id : Option String) (organizations : List OrgSummary)
  | invalidState
  | authFailed (msg : String)
  | noCode
  | serverError (msg : String)
deriving DecidableEq, Repr

/-- Whether a callback response is the success response. -/
def CbResponse.isSuccess : CbResponse → Bool
  | .ok _ _ _ _ _ => true
  | _ => false

/-- `views.py` lines 77–205, `callback_view`, at time `now`: state check,
state consumption, error/code checks, code exchange, claims validation,
organization fetch, display-name and current-organization derivation, session
writes.  Returns the response together with the resulting session. -/
def callback_view (now : Int) (body : CallbackBody) (sess : Session)
    (o : CallbackOracle) : CbResponse × Session :=
  if truthy body.state && body.state == sess.oauth_state then
    let sess := { sess with oauth_state := none }
    if truthy body.error then (.authFailed (body.error.getD ""), sess)
    else if !truthy body.code then (.noCode, sess)
    else
      match exchange_code_for_tokens o.sdkExchange with
      | .error e => (.serverError ("Authentication failed: " ++ e), sess)
      | .ok tr =>
        match get_user_info o.sdkClaims with
        | .error e => (.serverError ("Authentication failed: " ++ e), sess)
        | .ok user_info =>
          let organizations := o.orgs
          let current_org_id :=
            optOr user_info.oid (optOr user_info.org_id user_info.organization_id)
          let user_obj := tr.user
          let name := deriveName user_obj user_info
          let expires_in := tr.expires_in.getD 3600
          let sess := { sess with
            scalekit_user := some {
              sub := user_obj.id, email := user_obj.email, name := name,
              given_name := user_obj.givenName, family_name := user_obj.familyName,
              preferred_username := user_obj.username, claims := user_info,
              current_organization_id := current_org_id },
            scalekit_tokens := some {
              access_token := tr.access_token, refresh_token := tr.refresh_token,
              id_token := tr.id_token,
              expires_at := some (.valid (now + (expires_in : Int))),
              expires_in := expires_in } }
          (.ok user_obj.id user_obj.email name current_org_id organizations, sess)
  else (.invalidState, sess)

/-- A catalog entry of `SUPPORTED_CONNECTORS` (`connector_service.py` lines 13–32). -/
structure ConnectorInfo where
  name : String
  display_name : String
  description : String
  icon : String
deriving DecidableEq, Repr

/-- `connector_service.py` lines 13–32: the static connector catalog. -/
def SUPPORTED_CONNECTORS : List (String × ConnectorInfo) :=
  [("github", ⟨"github-WZZtcfBc", "GitHub",
     "Connect to GitHub to manage repositories, issues, and pull requests",
     "github"⟩),
   ("slack", ⟨"slack", "Slack",
     "Connect to Slack to send messages and manage channels", "slack"⟩),
   ("google_ads", ⟨"google_ads", "Google Ads",
     "Connect to Google Ads to manage advertising campaigns", "google_ads"⟩)]

/-- A connected account as the Scalekit actions API returns it. -/
structure ConnectedAccount where
  id : String
  status : String
deriving DecidableEq, Repr

/-- The dict `get_or_create_connected_account` returns on success. -/
structure AccountResult where
  id : String
  status : String
  connector : String
deriving DecidableEq, Repr

/-- `connector_service.py` lines 55–88,
`ConnectorService.get_or_create_connected_account`: rejects keys not in the
catalog with a `ValueError`, otherwise forwards the provider outcome
(the `except` on lines 86–88 re-raises). -/
def get_or_create_connected_account (k : String)
    (provider : Except String ConnectedAccount) : Except String AccountResult :=
  match SUPPORTED_CONNECTORS.lookup k with
  | none => .error ("Unsupported connector: " ++ k)
  | some _ =>
    match provider with
    | .error e => .error e
    | .ok acct => .ok ⟨acct.id, acct.status, k⟩

/-- The status dict `get_connection_status` builds; the success shape carries
`account_id` and no `error` key, the failure shape carries `error` and no
`account_id`. -/
structure ConnStatus where
  connector : String
  display_name : String
  description : String
  connected : Bool
  status : String
  account_id : Option String
  error : Option String
deriving DecidableEq, Repr

/-- `connector_service.py` lines 121–152, `ConnectorService.get_connection_status`.
An `Except.error` result models an exception escaping to the caller: note both
branches index `SUPPORTED_CONNECTORS[connector_name]`, which raises a
`KeyError` when the key is not in the catalog. -/
def get_connection_status (k : String)
    (provider : Except String ConnectedAccount) : Except String ConnStatus :=
  match get_or_create_connected_account k provider with
  | .ok acct =>
    match SUPPORTED_CONNECTORS.lookup k with
    | some info =>
      .ok ⟨k, info.display_name, info.description, acct.status == "ACTIVE",
           acct.status, some acct.id, none⟩
    | none => .error ("KeyError: " ++ k)
  | .error e =>
    match SUPPORTED_CONNECTORS.lookup k with
    | some info =>
      .ok ⟨k, info.display_name, info.description, false, "ERROR", none, some e⟩
    | none => .error ("KeyError: " ++ k)

/-- One membership record of the user object returned by the admin API
(`GET /api/v1/users/{user_id}`). -/
structure Membership where
  organization_id : Option String := none
  org_id : Option String := none
  organization_name : Option String := none
deriving DecidableEq, Repr

/-- One entry of the user object's `organizations` field: a dict or a bare
id string. -/
inductive OrgEntry where
  | obj (id : Option String) (organization_id : Option String)
      (display_name : Option String) (name : Option String)
  | str (s : String)
deriving DecidableEq, Repr

/-- The user object extracted from the admin-API response
(`data.get('user', data)`), restricted to the fields the code reads. -/
structure UserApiData where
  organization_memberships : List Membership := []
  memberships : List Membership := []
  organizations : List OrgEntry := []
deriving DecidableEq, Repr

/-- The organization object extracted from the admin-API response
(`data.get('organization', data)`). -/
structure OrgApiData where
  id : Option String := none
  display_name : Option String := none
  name : Option String := none
deriving DecidableEq, Repr

/-- Oracle for the admin-API round-trip of `get_user_organizations`
(`scalekit_client.py` lines 344–418): the client-credentials token fetch, the
user fetch (HTTP + `raise_for_status` + JSON parse), and the per-organization
details fetch of `_get_organization_details`.  An `.error` models the step
raising. -/
structure OrgProvider where
  cred : Except String String
  fetchUser : Except String UserApiData
  orgDetails : String → Except String OrgApiData

/-- `scalekit_client.py` lines 437–459, `ScalekitClient._get_organization_details`:
`none` when any step of its round-trip raises (caught on lines 457–459). -/
def get_organization_details (p : OrgProvider) (org_id : String) : Option OrgSummary :=
  match p.cred with
  | .error _ => none
  | .ok _ =>
    match p.orgDetails org_id with
    | .error _ => none
    | .ok org =>
      some { id := some (strOr org.id org_id),
             display_name := some (strOr org.display_name (strOr org.name org_id)) }

/-- `scalekit_client.py` lines 344–418, `ScalekitClient.get_user_organizations`
(the second, binding definition of that name in the class): builds the
organization list from the admin-API user object, returning `[]` whenever the
credential fetch or the user fetch raises (caught on lines 416–418). -/
def get_user_organizations_svc (p : OrgProvider) (user_id : String) : List OrgSummary :=
  match p.cred with
  | .error _ => []
  | .ok _ =>
    match p.fetchUser with
    | .error _ => []
    | .ok ud =>
      let memberships :=
        if ud.organization_memberships ≠ [] then ud.organization_memberships
        else ud.memberships
      let organizations := memberships.foldl (fun acc m =>
        let org_id := optOr m.organization_id m.org_id
        if truthy org_id then
          let oid := org_id.getD ""
          match get_organization_details p oid with
          | some d => acc ++ [d]
          | none =>
            acc ++ [{ id := some oid,
                      display_name := some (strOr m.organization_name oid) }]
        else acc) []
      if organizations = [] then
        ud.organizations.foldl (fun acc e =>
          match e with
          | .obj i oi dn nm =>
            let org_id := optOr i oi
            acc ++ [{ id := org_id, display_name := optOr dn (optOr nm org_id) }]
          | .str s =>
            match get_organization_details p s with
            | some d => acc ++ [d]
            | none => acc ++ [{ id := some s, display_name := some s }]) []
      else organizations

/-- The JSON payload of `user_info_view` (merged with the 401 response of
`api_login_required`, distinguished by `authenticated`). -/
structure UserInfoResponse where
  authenticated : Bool
  user_id : Option String := none
  email : Option String := none
  name : Option String := none
  current_organization_id : Option String := none
  organizations : List OrgSummary := []
deriving DecidableEq, Repr

/-- `views.py` lines 208–256, `user_info_view`, behind the
`api_login_required` decorator (`decorators.py` lines 8–21): with no
`scalekit_user` entry the decorator answers 401; otherwise the view re-fetches
the organization list via `get_user_organizations` and flags
`is_current` on each entry by comparison with the stored current organization. -/
def user_info_view (sess : Session) (p : OrgProvider) : UserInfoResponse :=
  match sess.scalekit_user with
  | none => { authenticated := false }
  | some u =>
    let user_id := u.sub
    let current_org_id := u.current_organization_id
    let organizations :=
      if truthy user_id then
        (get_user_organizations_svc p (user_id.getD "")).map
          (fun org => { org with is_current := some (org.id == current_org_id) })
      else []
    { authenticated := true, user_id := user_id, email := u.email,
      name := some u.name, current_organization_id := current_org_id,
      organizations := organizations }

/-- A session holding a stored OAuth state, no user, no tokens
(mid-login, before the callback). -/
def c1Session : Session := { oauth_state := some "s0" }

/-- A callback body whose state does not match the stored one. -/
def c1Body : CallbackBody := { state := some "attacker", code := some "c" }

/-- A callback oracle; never reached on the state-mismatch path. -/
def c1Oracle : CallbackOracle :=
  { sdkExchange := .error "x", sdkClaims := .error "x", orgs := [] }

/-- A full token bundle expiring at time 100 with a refresh token present. -/
def c2Bundle : TokenBundle :=
  { access_token := some "at", refresh_token := some "rt", id_token := some "idt",
    expires_at := some (.valid 100), expires_in := 3600 }

/-- An authenticated session carrying `c2Bundle`. -/
def c2Session : Session :=
  { scalekit_user := some { sub := some "usr_1", email := some "a@b.co", name := "A" },
    scalekit_tokens := some c2Bundle }

/-- A successful SDK refresh response carrying a rotated refresh token. -/
def c2Raw : RawTokenResponse :=
  { access_token := some "at2", refresh_token := some "rt2",
    id_token := some "idt2", expires_in := some 1800 }

/-- An authenticated session whose expired token bundle has no refresh token. -/
def c4Session : Session :=
  { scalekit_user := some { sub := some "usr_1", email := some "a@b.co", name := "A" },
    scalekit_tokens := some { access_token := some "at", refresh_token := none,
                              id_token := none, expires_at := some (.valid 100),
                              expires_in := 3600 } }

/-- An SDK refresh response that carries neither a refresh token nor
`expires_in`. -/
def c5Raw : RawTokenResponse := { access_token := some "at3" }

/-- A callback body carrying a provider-reported `error` parameter and a
matching state. -/
def c8Body : CallbackBody :=
  { state := some "s8", code := none, error := some "access_denied" }

/-- A session with a stored OAuth state matching `c8Body` and a pre-existing
user and token entry. -/
def c8Session : Session :=
  { oauth_state := some "s8",
    scalekit_user := some { sub := some "usr_8", email := some "o@b.co", name := "O" },
    scalekit_tokens := some { access_token := some "old", refresh_token := some "oldr",
                              id_token := none, expires_at := some (.valid 7),
                              expires_in := 60 } }

/-- A callback oracle; never consulted before the error-parameter check. -/
def c8Oracle : CallbackOracle :=
  { sdkExchange := .ok c2Raw, sdkClaims := .ok {}, orgs := [] }

/-- An admin-API oracle whose client-credentials token fetch raises. -/
def c10Provider : OrgProvider :=
  { cred := .error "connection refused", fetchUser := .ok {},
    orgDetails := fun _ => .error "connection refused" }

/-- An authenticated session for the user-info query. -/
def c10Session : Session :=
  { scalekit_user := some { sub := some "usr_10", email := some "u@b.co", name := "U",
                            current_organization_id := some "org_1" } }

/-- A session awaiting a callback with stored state `"s6"`. -/
def c6Session : Session := { oauth_state := some "s6" }

/-- A callback body matching `c6Session`'s stored state. -/
def c6Body : CallbackBody := { state := some "s6", code := some "code" }

/-- A callback oracle whose exchange succeeds with `c5Raw` (no `expires_in`,
so 3600 is defaulted) and whose claims validation succeeds. -/
def c6Oracle : CallbackOracle :=
  { sdkExchange := .ok c5Raw, sdkClaims := .ok {}, orgs := [] }

/-- The bundle the `c6Session`/`c6Body`/`c6Oracle` callback stores at time 50. -/
def c6Bundle : TokenBundle :=
  { access_token := some "at3", refresh_token := none, id_token := none,
    expires_at := some (.valid 3650), expires_in := 3600 }

/-- The bundle the middleware stores for `c2Session` refreshed at time 50
with response `c2Raw`. -/
def c6MwBundle : TokenBundle :=
  { access_token := some "at2", refresh_token := some "rt2", id_token := some "idt2",
    expires_at := some (.valid 1850), expires_in := 1800 }

end OrgSwitcher

namespace OrgSwitcher

/-- C7 auxiliary: `strOr a b` equals the first non-empty of the getD-defaulted
pair, i.e. Python `a or b` for string dict reads. -/
theorem strOr_eq_firstNonempty (a : Option String) (b : String) :
    strOr a b = firstNonempty [a.getD "", b] := by
  cases a with
  | none =>
    by_cases hb : b = "" <;> simp [strOr, firstNonempty, hb]
  | some s =>
    by_cases h : s = ""
    · subst h
      by_cases hb : b = "" <;> simp [strOr, firstNonempty, hb]
    · simp [strOr, firstNonempty, h]

/-- Auxiliary: appending a final fallback to a candidate list. -/
theorem firstNonempty_append_one (l : List String) (e : String) :
    firstNonempty (l ++ [e]) = if firstNonempty l == "" then e else firstNonempty l := by
  induction l with
  | nil =>
    by_cases he : e = "" <;> simp [firstNonempty, he]
  | cons s rest ih =>
    by_cases hs : s = "" <;> simp [firstNonempty, hs, ih]

/-- C7: counterexample — with `givenName` whitespace-only, the code takes the
given/family branch, strips it to the empty string and falls straight through
to email, while the claim's strict priority list ("first non-empty candidate
wins") would select the claim map's name. -/
theorem C7_counterexample :
    deriveName wsUserObj wsClaimMap = "eve@example.com" ∧
    specDisplayName wsUserObj wsClaimMap = "Grace" := by decide

/-- C7 (amended): the display name follows the priority list explicit name →
username → stripped given+family concatenation → claim name/preferred_username
→ email with first non-empty winning, except that whenever givenName or
familyName is non-empty the stripped concatenation is committed to and the
claim map is never consulted (a whitespace-only given/family hence falls
through directly to email); the claim's example
`{name: "", username: "", givenName: "Ada", familyName: "Lovelace"}` yields
`"Ada Lovelace"`. -/
theorem C7_amended :
    (∀ u c, deriveName u c = specDisplayNameAmended u c) ∧
    deriveName adaUserObj {} = "Ada Lovelace" := by
  constructor
  · intro u c
    unfold deriveName specDisplayNameAmended step1 step2
    rw [strOr_eq_firstNonempty, strOr_eq_firstNonempty]
    by_cases h1 : firstNonempty [u.name.getD "", u.username.getD ""] = ""
    · by_cases h2 : (u.givenName.getD "") = "" ∧ (u.familyName.getD "") = ""
      · obtain ⟨hg, hf⟩ := h2
        rw [show ([c.name.getD "", c.preferred_username.getD "", u.email.getD ""]) =
              [c.name.getD "", c.preferred_username.getD ""] ++ [u.email.getD ""] from rfl,
            firstNonempty_append_one]
        simp [h1, hg, hf]
      · rw [show ([pyStrip ((u.givenName.getD "") ++ " " ++ (u.familyName.getD "")),
              u.email.getD ""]) =
              [pyStrip ((u.givenName.getD "") ++ " " ++ (u.familyName.getD ""))] ++
                [u.email.getD ""] from rfl,
            firstNonempty_append_one]
        have h2' : ((u.givenName.getD "") == "" && (u.familyName.getD "") == "") = false := by
          rcases not_and_or.mp h2 with h | h <;> simp [h]
        simp only [h1, h2', if_false, Bool.false_eq_true]
        by_cases h3 : pyStrip (u.givenName.getD "" ++ " " ++ u.familyName.getD "") = "" <;>
          simp [firstNonempty, h3]
    · simp [h1]
  · decide

/-- C9: `process_request` is total and never fails the request it intercepts —
for every session state (absent user, missing token entry or fields, malformed
`expires_at`) and every SDK refresh outcome, including a raised exception, it
returns `None` so the request proceeds to its handler. -/
theorem C9_never_fails (now : Int) (path : String) (sess : Session)
    (sdk : Except String RawTokenResponse) :
    (process_request now path sess sdk).response = none := by
  unfold process_request
  repeat' split
  all_goals try rfl
  all_goals (dsimp only; split <;> rfl)

/-- C3: counterexample — for a connector key outside the catalog,
`get_connection_status` does raise to the caller: the `except` branch itself
indexes `SUPPORTED_CONNECTORS[connector_name]`, turning the `ValueError` into
an escaping `KeyError`. -/
theorem C3_counterexample :
    get_connection_status "dropbox" (Except.ok ⟨"acc_1", "ACTIVE"⟩) =
      Except.error "KeyError: dropbox" := by rfl

/-- C3 (amended): for every *catalog* connector key and every user identifier,
`get_connection_status` never raises — on a successful provider round-trip it
returns the well-formed status record, and on any provider error it returns a
record with `connected = false`, status `"ERROR"`, and the error message. -/
theorem C3_amended (k e : String) (acct : ConnectedAccount) (info : ConnectorInfo)
    (h : SUPPORTED_CONNECTORS.lookup k = some info) :
    get_connection_status k (Except.ok acct) =
      Except.ok ⟨k, info.display_name, info.description, acct.status == "ACTIVE",
        acct.status, some acct.id, none⟩ ∧
    get_connection_status k (Except.error e) =
      Except.ok ⟨k, info.display_name, info.description, false, "ERROR",
        none, some e⟩ := by
  constructor <;> simp [get_connection_status, get_or_create_connected_account, h]

/-- C3 witness: the amended theorem applied to the `slack` catalog entry, once
with a successful provider response and once with a provider error. -/
theorem C3_amended_witness :
    get_connection_status "slack" (Except.ok ⟨"acc_9", "PENDING"⟩) =
      Except.ok ⟨"slack", "Slack",
        "Connect to Slack to send messages and manage channels", false,
        "PENDING", some "acc_9", none⟩ ∧
    get_connection_status "slack" (Except.error "boom") =
      Except.ok ⟨"slack", "Slack",
        "Connect to Slack to send messages and manage channels", false, "ERROR",
        none, some "boom"⟩ :=
  C3_amended "slack" "boom" ⟨"acc_9", "PENDING"⟩
    ⟨"slack", "Slack", "Connect to Slack to send messages and manage channels",
     "slack"⟩ (by decide)

/-- Auxiliary: the outcome of `ScalekitClient.refresh_access_token` on a
successful SDK call — `expires_in` defaulted, absent/falsy refresh token
replaced by the old one. -/
theorem refresh_access_token_ok (rt : String) (tr : RawTokenResponse) :
    ∃ tr2, refresh_access_token rt (Except.ok tr) = Except.ok tr2 ∧
      tr2.access_token = tr.access_token ∧
      tr2.id_token = tr.id_token ∧
      tr2.expires_in = some (tr.expires_in.getD 3600) ∧
      tr2.refresh_token =
        (if truthy tr.refresh_token then tr.refresh_token else some rt) := by
  cases h : tr.expires_in with
  | none =>
    by_cases h2 : truthy tr.refresh_token = true
    · exact ⟨{ tr with expires_in := some 3600 },
        by simp [refresh_access_token, h, h2], rfl, rfl, by simp [h], by simp [h2]⟩
    · exact ⟨{ tr with expires_in := some 3600, refresh_token := some rt },
        by simp [refresh_access_token, h, h2], rfl, rfl, by simp [h], by simp [h2]⟩
  | some n =>
    by_cases h2 : truthy tr.refresh_token = true
    · exact ⟨tr, by simp [refresh_access_token, h, h2], rfl, rfl, by simp [h],
        by simp [h2]⟩
    · exact ⟨{ tr with refresh_token := some rt },
        by simp [refresh_access_token, h, h2], rfl, rfl, by simp [h], by simp [h2]⟩

/-- C2: counterexample — a request on `/static/app.js` carries a full token
bundle satisfying `now + 60 ≥ expires_at`, the path is not one of the
login/callback/logout/refresh paths the claim exempts, and yet no refresh is
attempted (the source's skip list also contains `/static/`). -/
theorem C2_counterexample :
    (process_request 100 "/static/app.js" c2Session (Except.ok c2Raw)).refreshAttempted
        = false ∧
    ((100 : Int) + 60 ≥ 100) ∧
    claimExemptPaths.all (fun p => !pyStartsWith "/static/app.js" p) = true := by
  decide

/-- C2 (amended): `process_request` attempts a refresh exactly when a
`scalekit_user` entry is present, the path matches no entry of the source's
skip list (login/callback/logout/refresh and additionally `/static/`), the
session holds a token bundle whose `expires_at` is present and parses, that
bundle's refresh token is truthy, and `now + 60s ≥ expires_at`; in particular
it never attempts a refresh on the exempted paths. -/
theorem C2_amended (now : Int) (path : String) (sess : Session)
    (sdk : Except String RawTokenResponse) :
    (process_request now path sess sdk).refreshAttempted = true ↔
      (sess.scalekit_user.isSome = true ∧
       (skip_paths.any fun p => pyStartsWith path p) = false ∧
       ∃ td t, sess.scalekit_tokens = some td ∧
         td.expires_at.bind parseTime = some t ∧
         truthy td.refresh_token = true ∧ now + 60 ≥ t) := by
  cases hu : sess.scalekit_user with
  | none => simp [process_request, hu]
  | some u =>
    by_cases hp : (skip_paths.any fun p => pyStartsWith path p) = true
    · simp [process_request, hu, hp]
    · cases ht : sess.scalekit_tokens with
      | none => simp [process_request, hu, hp, ht]
      | some td =>
        cases hea : td.expires_at with
        | none => simp [process_request, hu, hp, ht, hea]
        | some ts =>
          cases hpt : parseTime ts with
          | none => simp [process_request, hu, hp, ht, hea, hpt]
          | some t =>
            by_cases hge : now + 60 ≥ t
            · by_cases hrt : truthy td.refresh_token = true
              · cases hra : refresh_access_token (td.refresh_token.getD "") sdk <;>
                  simp [process_request, hu, hp, ht, hea, hpt, hge, hrt, hra]
              · simp [process_request, hu, hp, ht, hea, hpt, hge, hrt]
            · simp [process_request, hu, hp, ht, hea, hpt, hge]

/-- C4: when a refresh attempt fails — because the stored bundle holds no
truthy refresh token, or because the SDK refresh call raises — the middleware
leaves the whole session, in particular every field of `scalekit_tokens`,
unchanged. -/
theorem C4_failed_refresh_keeps_tokens (now : Int) (path : String) (sess : Session)
    (sdk : Except String RawTokenResponse) (td : TokenBundle)
    (htd : sess.scalekit_tokens = some td)
    (h : (∃ e, sdk = Except.error e) ∨ truthy td.refresh_token = false) :
    (process_request now path sess sdk).session = sess := by
  rcases h with ⟨e, he⟩ | hrt
  · subst he
    unfold process_request
    repeat' split
    all_goals rfl
  · unfold process_request
    repeat' split
    all_goals try rfl
    all_goals (exfalso; simp_all)

/-- C4 witness: an expired bundle with no refresh token on a non-skipped path
is left untouched. -/
theorem C4_witness :
    (process_request 100 "/api/user" c4Session (Except.ok c2Raw)).session = c4Session :=
  C4_failed_refresh_keeps_tokens 100 "/api/user" c4Session (Except.ok c2Raw)
    { access_token := some "at", refresh_token := none, id_token := none,
      expires_at := some (.valid 100), expires_in := 3600 }
    rfl (Or.inr rfl)

/-- C5: on a refresh the middleware actually performs, if the provider's
response omits (or has falsy) a new refresh token, the bundle stored in the
session carries the prior refresh token unchanged; and if the response omits
`expires_in`, the stored `expires_in` defaults to 3600 seconds. -/
theorem C5_refresh_defaults (now : Int) (path : String) (sess : Session)
    (td : TokenBundle) (ts : TimeStr) (t : Int) (rt : String) (tr : RawTokenResponse)
    (hu : sess.scalekit_user.isSome = true)
    (hp : (skip_paths.any fun p => pyStartsWith path p) = false)
    (htd : sess.scalekit_tokens = some td)
    (hts : td.expires_at = some ts)
    (hpt : parseTime ts = some t)
    (hexp : now + 60 ≥ t)
    (hrt : td.refresh_token = some rt)
    (hrt2 : ¬rt = "") :
    ∃ nb, (process_request now path sess (Except.ok tr)).session.scalekit_tokens
        = some nb ∧
      (truthy tr.refresh_token = false → nb.refresh_token = some rt) ∧
      (tr.expires_in = none → nb.expires_in = 3600) := by
  have htr : truthy td.refresh_token = true := by
    simp [hrt, truthy, truthyStr, hrt2]
  have hgd : td.refresh_token.getD "" = rt := by simp [hrt]
  cases hus : sess.scalekit_user with
  | none => rw [hus] at hu; simp at hu
  | some u =>
    obtain ⟨tr2, hra, hacc, hid, hexpin, hrtok⟩ := refresh_access_token_ok rt tr
    rw [← hgd] at hra
    simp only [process_request, hus, hp, htd, hts, hpt, hra, Option.isNone_some,
      Bool.false_eq_true, if_false, htr, hexp, ite_true, if_true]
    refine ⟨_, rfl, ?_, ?_⟩
    · intro h
      rw [h] at hrtok
      simp only [if_neg (by simp : ¬(false = true))] at hrtok
      simp [hrtok]
    · intro h
      rw [h] at hexpin
      simp [hexpin]

/-- C5 witness: a refresh at time 100 whose SDK response has neither a refresh
token nor `expires_in` keeps the old refresh token and defaults to 3600. -/
theorem C5_witness :
    ∃ nb, (process_request 100 "/api/user" c2Session (Except.ok c5Raw)).session.scalekit_tokens
        = some nb ∧
      (truthy c5Raw.refresh_token = false → nb.refresh_token = some "rt") ∧
      (c5Raw.expires_in = none → nb.expires_in = 3600) :=
  C5_refresh_defaults 100 "/api/user" c2Session c2Bundle (.valid 100) 100 "rt" c5Raw
    rfl (by decide) rfl rfl rfl (by decide) rfl (by decide)

/-- C1: counterexample — on a state-mismatch failure the stored OAuthState is
NOT consumed: the pop on line 112 of `views.py` sits after the mismatch check
on line 105, so the session keeps `oauth_state = "s0"`. -/
theorem C1_counterexample :
    (callback_view 0 c1Body c1Session c1Oracle).2.oauth_state = some "s0" ∧
    (callback_view 0 c1Body c1Session c1Oracle).1 = CbResponse.invalidState := by
  decide

/-- C1 (amended): the stored OAuthState is consumed exactly when the supplied
state is non-empty and equals it — so in every outcome of those callbacks
(success, provider-reported error parameter, missing code, failed exchange or
claims validation) the state is deleted, while a callback failing the state
check leaves the stored state in place. -/
theorem C1_amended (now : Int) (body : CallbackBody) (sess : Session)
    (o : CallbackOracle) :
    (callback_view now body sess o).2.oauth_state =
      (if truthy body.state && body.state == sess.oauth_state then none
       else sess.oauth_state) := by
  unfold callback_view
  by_cases h : (truthy body.state && body.state == sess.oauth_state) = true
  · simp only [h, if_true]
    repeat' split
    all_goals rfl
  · simp [h]

/-- C8: whenever `callback_view` returns any of its error responses (state
mismatch, provider error parameter, missing code, failed exchange or claims
validation), neither the `scalekit_user` nor the `scalekit_tokens` session
entry is written — both keep their prior values. -/
theorem C8_no_record_on_error (now : Int) (body : CallbackBody) (sess : Session)
    (o : CallbackOracle)
    (h : (callback_view now body sess o).1.isSuccess = false) :
    (callback_view now body sess o).2.scalekit_user = sess.scalekit_user ∧
    (callback_view now body sess o).2.scalekit_tokens = sess.scalekit_tokens := by
  by_cases hs : (truthy body.state && body.state == sess.oauth_state) = true
  · by_cases he : truthy body.error = true
    · simp [callback_view, hs, he]
    · by_cases hc : truthy body.code = true
      · cases hex : exchange_code_for_tokens o.sdkExchange with
        | error e => simp [callback_view, hs, he, hc, hex]
        | ok tr =>
          cases hui : get_user_info o.sdkClaims with
          | error e => simp [callback_view, hs, he, hc, hex, hui]
          | ok ci =>
            exfalso
            simp [callback_view, hs, he, hc, hex, hui, CbResponse.isSuccess] at h
      · simp [callback_view, hs, he, hc]
  · simp [callback_view, hs]

/-- C8 witness: a callback carrying a provider `error` parameter (with a
matching state) leaves the pre-existing user and token entries untouched. -/
theorem C8_witness :
    (callback_view 5 c8Body c8Session c8Oracle).2.scalekit_user
        = c8Session.scalekit_user ∧
    (callback_view 5 c8Body c8Session c8Oracle).2.scalekit_tokens
        = c8Session.scalekit_tokens :=
  C8_no_record_on_error 5 c8Body c8Session c8Oracle (by decide)

/-- C6: every token bundle found in the session after a callback or after a
middleware pass is either the pre-existing bundle or has
`expires_at = now + expires_in` computed at the moment of the write — it is
never the provider-supplied expiry (`expires_at_wire`, which no code path
reads). -/
theorem C6_expires_at_derived (now : Int) (body : CallbackBody) (sess : Session)
    (o : CallbackOracle) (path : String) (sdk : Except String RawTokenResponse)
    (nb nb2 : TokenBundle) :
    ((callback_view now body sess o).2.scalekit_tokens = some nb →
      sess.scalekit_tokens = some nb ∨
      nb.expires_at = some (.valid (now + (nb.expires_in : Int)))) ∧
    ((process_request now path sess sdk).session.scalekit_tokens = some nb2 →
      sess.scalekit_tokens = some nb2 ∨
      nb2.expires_at = some (.valid (now + (nb2.expires_in : Int)))) := by
  constructor
  · intro h
    by_cases hs : (truthy body.state && body.state == sess.oauth_state) = true
    · by_cases he : truthy body.error = true
      · simp only [callback_view, hs, he, if_true] at h
        exact Or.inl h
      · by_cases hc : truthy body.code = true
        · cases hex : exchange_code_for_tokens o.sdkExchange with
          | error e =>
            simp only [callback_view, hs, he, hc, hex, if_true, Bool.not_true,
              Bool.false_eq_true, if_false] at h
            exact Or.inl h
          | ok tr =>
            cases hui : get_user_info o.sdkClaims with
            | error e =>
              simp only [callback_view, hs, he, hc, hex, hui, if_true,
                Bool.not_true, Bool.false_eq_true, if_false] at h
              exact Or.inl h
            | ok ci =>
              simp only [callback_view, hs, he, hc, hex, hui, if_true,
                Bool.not_true, Bool.false_eq_true, if_false,
                Option.some.injEq] at h
              right
              rw [← h]
        · simp only [callback_view, hs, he, hc, if_true, Bool.not_true,
            Bool.false_eq_true, Bool.not_false, if_false] at h
          exact Or.inl h
    · simp only [callback_view, hs, Bool.false_eq_true, if_false] at h
      exact Or.inl h
  · intro h
    cases hu : sess.scalekit_user with
    | none =>
      simp only [process_request, hu, Option.isNone_none, if_true] at h
      exact Or.inl h
    | some u =>
      by_cases hp : (skip_paths.any fun p => pyStartsWith path p) = true
      · simp only [process_request, hu, hp, Option.isNone_some, if_true,
          Bool.false_eq_true, if_false] at h
        exact Or.inl h
      · cases ht : sess.scalekit_tokens with
        | none =>
          simp only [process_request, hu, hp, Option.isNone_some,
            Bool.false_eq_true, if_false, ht] at h
          exact Or.inl (ht ▸ h)
        | some td =>
          cases hea : td.expires_at with
          | none =>
            simp only [process_request, hu, hp, Option.isNone_some,
              Bool.false_eq_true, if_false, ht, hea] at h
            exact Or.inl (ht ▸ h)
          | some ts =>
            cases hpt : parseTime ts with
            | none =>
              simp only [process_request, hu, hp, Option.isNone_some,
                Bool.false_eq_true, if_false, ht, hea, hpt] at h
              exact Or.inl (ht ▸ h)
            | some t =>
              by_cases hge : now + 60 ≥ t
              · by_cases hrt : truthy td.refresh_token = true
                · cases hra : refresh_access_token (td.refresh_token.getD "") sdk with
                  | error e =>
                    simp only [process_request, hu, hp, Option.isNone_some,
                      Bool.false_eq_true, if_false, ht, hea, hpt, hge, hrt,
                      if_true, hra] at h
                    exact Or.inl (ht ▸ h)
                  | ok tr =>
                    simp only [process_request, hu, hp, Option.isNone_some,
                      Bool.false_eq_true, if_false, ht, hea, hpt, hge, hrt,
                      if_true, hra, Option.some.injEq] at h
                    right
                    rw [← h]
                · simp only [process_request, hu, hp, Option.isNone_some,
                    Bool.false_eq_true, if_false, ht, hea, hpt, hge, hrt,
                    if_true] at h
                  exact Or.inl (ht ▸ h)
              · simp only [process_request, hu, hp, Option.isNone_some,
                  Bool.false_eq_true, if_false, ht, hea, hpt, hge, if_true] at h
                exact Or.inl (ht ▸ h)

/-- C6 witness: the bundle a successful callback at time 50 stores (with the
exchange response omitting `expires_in`, hence 3600) has
`expires_at = 50 + 3600 = 3650`, derived via the theorem. -/
theorem C6_witness :
    c6Bundle.expires_at = some (.valid (50 + (c6Bundle.expires_in : Int))) :=
  ((C6_expires_at_derived 50 c6Body c6Session c6Oracle "/api/user"
      (Except.ok c2Raw) c6Bundle c6MwBundle).1 (by decide)).resolve_left (by decide)

/-- C10: the service-credential organization listing is fail-soft — if the
client-credentials token fetch or the admin user fetch (HTTP status or JSON
parse) raises, `get_user_organizations` returns the empty list, and the
user-info query consequently reports an empty organization list on an
authenticated response rather than an error. -/
theorem C10_orgs_fail_soft (p : OrgProvider) (user_id : String) (sess : Session)
    (u : SessionUser) (hs : sess.scalekit_user = some u)
    (h : (∃ e, p.cred = Except.error e) ∨ (∃ e, p.fetchUser = Except.error e)) :
    get_user_organizations_svc p user_id = [] ∧
    (user_info_view sess p).organizations = [] ∧
    (user_info_view sess p).authenticated = true := by
  have hsvc : ∀ uid, get_user_organizations_svc p uid = [] := by
    intro uid
    rcases h with ⟨e, he⟩ | ⟨e, he⟩
    · simp [get_user_organizations_svc, he]
    · cases hc : p.cred with
      | error e2 => simp [get_user_organizations_svc, hc]
      | ok tok => simp [get_user_organizations_svc, hc, he]
  refine ⟨hsvc user_id, ?_, ?_⟩
  · by_cases ht : truthy u.sub = true <;> simp [user_info_view, hs, ht, hsvc]
  · simp [user_info_view, hs]

/-- C10 witness: with the credential fetch failing, the listing is empty and
the user-info response is still an authenticated success. -/
theorem C10_witness :
    get_user_organizations_svc c10Provider "usr_10" = [] ∧
    (user_info_view c10Session c10Provider).organizations = [] ∧
    (user_info_view c10Session c10Provider).authenticated = true :=
  C10_orgs_fail_soft c10Provider "usr_10" c10Session
    { sub := some "usr_10", email := some "u@b.co", name := "U",
      current_organization_id := some "org_1" }
    rfl (Or.inl ⟨"connection refused", rfl⟩)

end OrgSwitcher
